import Mathlib

/-!
Shallow embedding of the whiteboard canvas (src/src/index.ts, the variant
with the save-listener pipeline).  Pointer handlers, the save pipeline and
the render pass are modelled as pure state transformers on `CanvasState`;
the 2d-context output is recorded as a list of draw commands.
-/

set_option maxRecDepth 4000

/-- Host-language numbers as the code uses them: integers plus the
infinities (`onMouseUp` stores `Infinity` as the anchor sentinel) and
`nan` to keep subtraction total. -/
inductive JVal where
  | num (n : Int)
  | inf
  | ninf
  | nan
deriving DecidableEq

/-- IEEE-style subtraction restricted to the values above. -/
def JVal.sub : JVal → JVal → JVal
  | .num a, .num b => .num (a - b)
  | .num _, .inf   => .ninf
  | .num _, .ninf  => .inf
  | .num _, .nan   => .nan
  | .inf,  .num _  => .inf
  | .inf,  .inf    => .nan
  | .inf,  .ninf   => .inf
  | .inf,  .nan    => .nan
  | .ninf, .num _  => .ninf
  | .ninf, .inf    => .ninf
  | .ninf, .ninf   => .nan
  | .ninf, .nan    => .nan
  | .nan,  _       => .nan

instance : Sub JVal := ⟨JVal.sub⟩

/-- Class `Box`: the committed/provisional rectangle.  The source declares
`color: string`, but the only constructor call passes `this.currentColor!`,
a bare non-null cast of an `string | undefined` slot, so the embedded field
keeps the `Option`. -/
structure Box where
  posX : JVal
  posY : JVal
  width : JVal
  height : JVal
  color : Option String
deriving DecidableEq

/-- Sum type `Item = Box | ImageItem`; an `ImageItem` wraps an image reference,
identified here by its source path. -/
inductive Item where
  | box (b : Box)
  | image (img : String)
deriving DecidableEq

/-- Function `isBox`: probes `posX !== undefined`, i.e. discriminates the variant. -/
def isBox : Item → Bool
  | .box _ => true
  | .image _ => false

/-- The fixed palette `googColors` of `getRandomColor`. -/
def googColors : List String := ["blue", "red", "yellow", "green"]

/-- One `next()` of the `getRandomColor` generator: the internal counter
`currentNumber` is incremented first, then
`googColors[currentNumber % googColors.length]` is yielded. -/
def getRandomColorNext (currentNumber : Nat) : Nat × String :=
  let n := currentNumber + 1
  (n, googColors.getD (n % googColors.length) "")

/-- Observable outcome of one save-listener call: a returned boolean or a
thrown error. -/
inductive LRes where
  | ret (b : Bool)
  | err
deriving DecidableEq

/-- A save listener.  The TS signature is `(box: Box) => boolean`, but
`saveCurrentBox` invokes it on `<Box>this.currentBox`, which may be
`undefined`, hence the `Option Box` argument. -/
def Listener : Type := Option Box → LRes

/-- Decision of the save pipeline. -/
inductive Decision where
  | accept
  | reject
deriving DecidableEq

/-- The loop of `saveCurrentBox` over `this.saveCallbacks`: returns the
decision together with the number of callbacks actually invoked (`return`
on the first `false` result or thrown error skips the rest). -/
def runSaveCallbacks : List Listener → Option Box → Decision × Nat
  | [], _ => (.accept, 0)
  | cb :: rest, b =>
    match cb b with
    | .ret true =>
      let r := runSaveCallbacks rest b
      (r.1, r.2 + 1)
    | .ret false => (.reject, 1)
    | .err => (.reject, 1)

/-- Commands issued to the 2d context, in emission order. -/
inductive DrawOp where
  | clearRect (x y w h : JVal)
  | strokeRect (x y w h : JVal) (style : Option String)
  | drawImage (img : String) (x y w h : JVal)
deriving DecidableEq

/-- The 2d rendering context: ambient stroke state plus the log of
commands issued so far. -/
structure Ctx where
  strokeStyle : Option String
  lineWidth : Int
  lineCap : String
  ops : List DrawOp
deriving DecidableEq

/-- The `Canvas` object state.  `rectLeft`/`rectTop` model
`getBoundingClientRect()` (the `xCorrection`/`yCorrection` getters), taken
as fixed for a given canvas.  `listenerCalls` is instrumentation: it counts
save-callback invocations, since a callback's side effects happen exactly
when it is invoked. -/
structure CanvasState where
  width : Int
  height : Int
  rectLeft : Int
  rectTop : Int
  ctx : Ctx
  boxes : List Item
  currentBox : Option Box
  xstartPosition : JVal
  ystartPosition : JVal
  canDraw : Bool
  currentColor : Option String
  colorNumber : Nat
  saveCallbacks : List Listener
  listenerCalls : Nat

/-- A mouse event's position. -/
structure MouseEvent where
  clientX : Int
  clientY : Int
deriving DecidableEq

/-- Method `setColor`: writes the context stroke style and `this.currentColor`.
The public method takes a `string`; `refresh` re-enters it with
`previousColor = this.currentColor!`, possibly `undefined`, hence the
`Option` parameter. -/
def setColor (s : CanvasState) (color : Option String) : CanvasState :=
  { s with ctx := { s.ctx with strokeStyle := color }, currentColor := color }

/-- Call `this.ctx.strokeRect(x, y, w, h)`: records the command with the stroke
style in force. -/
def strokeRectOp (s : CanvasState) (x y w h : JVal) : CanvasState :=
  { s with ctx :=
      { s.ctx with ops := s.ctx.ops ++ [DrawOp.strokeRect x y w h s.ctx.strokeStyle] } }

/-- One iteration of the `refresh` loop body over a committed item. -/
def refreshItem (s : CanvasState) : Item → CanvasState
  | .box b =>
    let previousColor := s.currentColor
    let s1 := setColor s b.color
    let s2 := strokeRectOp s1 b.posX b.posY b.width b.height
    setColor s2 previousColor
  | .image img =>
    { s with ctx :=
        { s.ctx with ops := s.ctx.ops ++
            [DrawOp.drawImage img (JVal.num 0) (JVal.num 0)
              (JVal.num s.width) (JVal.num s.height)] } }

/-- Method `refresh`: clears the whole surface, then repaints every committed item
in order. -/
def refresh (s : CanvasState) : CanvasState :=
  let s0 := { s with ctx :=
      { s.ctx with ops := s.ctx.ops ++
          [DrawOp.clearRect (JVal.num 0) (JVal.num 0)
            (JVal.num s.width) (JVal.num s.height)] } }
  s0.boxes.foldl refreshItem s0

/-- Method `saveCurrentBox`: runs the callbacks on `<Box>this.currentBox`; an
early `return` on veto or error leaves the rest of the method unexecuted;
otherwise a defined `currentBox` is pushed onto `boxes` and cleared. -/
def saveCurrentBox (s : CanvasState) : CanvasState :=
  let r := runSaveCallbacks s.saveCallbacks s.currentBox
  let s1 := { s with listenerCalls := s.listenerCalls + r.2 }
  match r.1 with
  | .reject => s1
  | .accept =>
    match s1.currentBox with
    | some b => { s1 with boxes := s1.boxes ++ [Item.box b], currentBox := none }
    | none => s1

/-- Method `addSaveListener`. -/
def addSaveListener (s : CanvasState) (cb : Listener) : CanvasState :=
  { s with saveCallbacks := s.saveCallbacks ++ [cb] }

/-- Handler `onMouseUp`. -/
def onMouseUp (s : CanvasState) (_e : MouseEvent) : CanvasState :=
  let s1 := { s with canDraw := false,
                     xstartPosition := JVal.inf,
                     ystartPosition := JVal.inf }
  let s2 := saveCurrentBox s1
  { s2 with currentColor := none }

/-- Handler `onMouseDown`. -/
def onMouseDown (s : CanvasState) (e : MouseEvent) : CanvasState :=
  { s with canDraw := true,
           xstartPosition := JVal.num (e.clientX - s.rectLeft),
           ystartPosition := JVal.num (e.clientY - s.rectTop) }

/-- Method `drawRectangle`. -/
def drawRectangle (s : CanvasState) (e : MouseEvent) : CanvasState :=
  if !s.canDraw then s
  else
    let s1 := refresh s
    let s2 :=
      match s1.currentColor with
      | none =>
        let g := getRandomColorNext s1.colorNumber
        setColor { s1 with colorNumber := g.1 } (some g.2)
      | some _ => s1
    let width := ((JVal.num e.clientX) - s2.xstartPosition) - (JVal.num s2.rectLeft)
    let height := ((JVal.num e.clientY) - s2.ystartPosition) - (JVal.num s2.rectTop)
    let s3 := strokeRectOp s2 s2.xstartPosition s2.ystartPosition width height
    { s3 with
        currentBox :=
          some (Box.mk s3.xstartPosition s3.ystartPosition width height s3.currentColor) }

/-- Handler `onDraw`. -/
def onDraw (s : CanvasState) (e : MouseEvent) : CanvasState :=
  drawRectangle s e

/-- Method `setPicture`: pushes an `ImageItem` onto the committed list (the
image's deferred `onload` is the separate `imageLoad` event below). -/
def setPicture (s : CanvasState) (path : String) : CanvasState :=
  { s with boxes := s.boxes ++ [Item.image path] }

/-- Methods `setup` and `setupPen`: pen configuration (the event-listener wiring is
the event dispatch itself). -/
def setupPen (s : CanvasState) : CanvasState :=
  { s with ctx := { s.ctx with lineCap := "butt", lineWidth := 3 } }

/-- Every externally triggered operation on a canvas: the three pointer
handlers, the public methods, and the deferred image `onload` (which just
calls `refresh`). -/
inductive Ev where
  | mouseDown (e : MouseEvent)
  | mouseMove (e : MouseEvent)
  | mouseUp (e : MouseEvent)
  | setPicture (path : String)
  | addSaveListener (cb : Listener)
  | setColor (c : String)
  | setup
  | imageLoad

/-- Dispatch of one operation. -/
def stepEv (s : CanvasState) : Ev → CanvasState
  | .mouseDown e => onMouseDown s e
  | .mouseMove e => onDraw s e
  | .mouseUp e => onMouseUp s e
  | .setPicture p => setPicture s p
  | .addSaveListener cb => addSaveListener s cb
  | .setColor c => setColor s (some c)
  | .setup => setupPen s
  | .imageLoad => refresh s

/-- A whole event sequence. -/
def runEvents (s : CanvasState) (evs : List Ev) : CanvasState :=
  evs.foldl stepEv s

/-- The constructor: a fresh canvas of the given size and screen offset
(2d-context defaults for the stroke state, all fields at their TS
declared defaults). -/
def initCanvas (width height rectLeft rectTop : Int) : CanvasState :=
  { width := width
    height := height
    rectLeft := rectLeft
    rectTop := rectTop
    ctx := { strokeStyle := some "#000000", lineWidth := 1, lineCap := "butt", ops := [] }
    boxes := []
    currentBox := none
    xstartPosition := JVal.num 0
    ystartPosition := JVal.num 0
    canDraw := false
    currentColor := none
    colorNumber := 0
    saveCallbacks := []
    listenerCalls := 0 }

/-! ### Frame lemmas -/

/-- Denotation of one item's paint: the commands the `refresh` loop body
emits for it (derived for the statements below). -/
def itemOps (w h : Int) : Item → List DrawOp
  | .box b => [DrawOp.strokeRect b.posX b.posY b.width b.height b.color]
  | .image img =>
      [DrawOp.drawImage img (JVal.num 0) (JVal.num 0) (JVal.num w) (JVal.num h)]

/-- Commands one whole `refresh` call emits, as a function of the state it
reads (derived for the statements below). -/
def refreshTrace (s : CanvasState) : List DrawOp :=
  DrawOp.clearRect (JVal.num 0) (JVal.num 0) (JVal.num s.width) (JVal.num s.height)
    :: (s.boxes.map (itemOps s.width s.height)).flatten

theorem refreshItem_frame (st : CanvasState) (it : Item) :
    (refreshItem st it).boxes = st.boxes ∧
    (refreshItem st it).currentBox = st.currentBox ∧
    (refreshItem st it).currentColor = st.currentColor ∧
    (refreshItem st it).colorNumber = st.colorNumber ∧
    (refreshItem st it).canDraw = st.canDraw ∧
    (refreshItem st it).xstartPosition = st.xstartPosition ∧
    (refreshItem st it).ystartPosition = st.ystartPosition ∧
    (refreshItem st it).saveCallbacks = st.saveCallbacks ∧
    (refreshItem st it).width = st.width ∧
    (refreshItem st it).height = st.height ∧
    (refreshItem st it).rectLeft = st.rectLeft ∧
    (refreshItem st it).rectTop = st.rectTop ∧
    (refreshItem st it).listenerCalls = st.listenerCalls := by
  cases it <;>
    exact ⟨rfl, rfl, rfl, rfl, rfl, rfl, rfl, rfl, rfl, rfl, rfl, rfl, rfl⟩

theorem refreshItem_ops (st : CanvasState) (it : Item) :
    (refreshItem st it).ctx.ops = st.ctx.ops ++ itemOps st.width st.height it := by
  cases it <;> rfl

theorem foldl_refreshItem_frame : ∀ (l : List Item) (st : CanvasState),
    (l.foldl refreshItem st).boxes = st.boxes ∧
    (l.foldl refreshItem st).currentBox = st.currentBox ∧
    (l.foldl refreshItem st).currentColor = st.currentColor ∧
    (l.foldl refreshItem st).colorNumber = st.colorNumber ∧
    (l.foldl refreshItem st).canDraw = st.canDraw ∧
    (l.foldl refreshItem st).xstartPosition = st.xstartPosition ∧
    (l.foldl refreshItem st).ystartPosition = st.ystartPosition ∧
    (l.foldl refreshItem st).saveCallbacks = st.saveCallbacks ∧
    (l.foldl refreshItem st).width = st.width ∧
    (l.foldl refreshItem st).height = st.height ∧
    (l.foldl refreshItem st).rectLeft = st.rectLeft ∧
    (l.foldl refreshItem st).rectTop = st.rectTop ∧
    (l.foldl refreshItem st).listenerCalls = st.listenerCalls
  | [], st => ⟨rfl, rfl, rfl, rfl, rfl, rfl, rfl, rfl, rfl, rfl, rfl, rfl, rfl⟩
  | it :: l, st => by
    obtain ⟨a1, a2, a3, a4, a5, a6, a7, a8, a9, a10, a11, a12, a13⟩ :=
      refreshItem_frame st it
    obtain ⟨b1, b2, b3, b4, b5, b6, b7, b8, b9, b10, b11, b12, b13⟩ :=
      foldl_refreshItem_frame l (refreshItem st it)
    exact ⟨b1.trans a1, b2.trans a2, b3.trans a3, b4.trans a4, b5.trans a5,
      b6.trans a6, b7.trans a7, b8.trans a8, b9.trans a9, b10.trans a10,
      b11.trans a11, b12.trans a12, b13.trans a13⟩

theorem foldl_refreshItem_ops : ∀ (l : List Item) (st : CanvasState),
    (l.foldl refreshItem st).ctx.ops =
      st.ctx.ops ++ (l.map (itemOps st.width st.height)).flatten
  | [], st => by simp
  | it :: l, st => by
    have hw := (refreshItem_frame st it).2.2.2.2.2.2.2.2.1
    have hh := (refreshItem_frame st it).2.2.2.2.2.2.2.2.2.1
    have ih := foldl_refreshItem_ops l (refreshItem st it)
    rw [hw, hh, refreshItem_ops] at ih
    simp [List.foldl, ih]

theorem refresh_frame (s : CanvasState) :
    (refresh s).boxes = s.boxes ∧
    (refresh s).currentBox = s.currentBox ∧
    (refresh s).currentColor = s.currentColor ∧
    (refresh s).colorNumber = s.colorNumber ∧
    (refresh s).canDraw = s.canDraw ∧
    (refresh s).xstartPosition = s.xstartPosition ∧
    (refresh s).ystartPosition = s.ystartPosition ∧
    (refresh s).saveCallbacks = s.saveCallbacks ∧
    (refresh s).width = s.width ∧
    (refresh s).height = s.height ∧
    (refresh s).rectLeft = s.rectLeft ∧
    (refresh s).rectTop = s.rectTop ∧
    (refresh s).listenerCalls = s.listenerCalls := by
  unfold refresh
  exact foldl_refreshItem_frame s.boxes _

theorem refresh_ops (s : CanvasState) :
    (refresh s).ctx.ops = s.ctx.ops ++ refreshTrace s := by
  unfold refresh refreshTrace
  rw [foldl_refreshItem_ops]
  simp

/-! ### Save-pipeline lemmas -/

theorem runSaveCallbacks_all_true : ∀ (cbs : List Listener) (b : Option Box),
    (∀ cb ∈ cbs, cb b = LRes.ret true) →
    runSaveCallbacks cbs b = (Decision.accept, cbs.length)
  | [], _, _ => rfl
  | cb :: rest, b, h => by
    have hh : cb b = LRes.ret true := h cb (List.mem_cons_self cb rest)
    have ih := runSaveCallbacks_all_true rest b
      (fun c hc => h c (List.mem_cons_of_mem cb hc))
    simp [runSaveCallbacks, hh, ih]

theorem runSaveCallbacks_reject :
    ∀ (pre : List Listener) (l : Listener) (post : List Listener) (b : Option Box),
    (∀ cb ∈ pre, cb b = LRes.ret true) → l b ≠ LRes.ret true →
    runSaveCallbacks (pre ++ l :: post) b = (Decision.reject, pre.length + 1)
  | [], l, post, b, _, hl => by
    cases hres : l b with
    | ret bb =>
      cases bb with
      | true => exact absurd hres hl
      | false => simp [runSaveCallbacks, hres]
    | err => simp [runSaveCallbacks, hres]
  | cb :: pre, l, post, b, h, hl => by
    have hh : cb b = LRes.ret true := h cb (List.mem_cons_self cb pre)
    have ih := runSaveCallbacks_reject pre l post b
      (fun c hc => h c (List.mem_cons_of_mem cb hc)) hl
    simp only [List.cons_append, runSaveCallbacks, hh, List.append_eq, ih,
      List.length_cons]

theorem runSaveCallbacks_err_veto :
    ∀ (pre : List Listener) (l l2 : Listener) (post : List Listener) (b : Option Box),
    l b = LRes.err → l2 b = LRes.ret false →
    runSaveCallbacks (pre ++ l :: post) b = runSaveCallbacks (pre ++ l2 :: post) b
  | [], l, l2, post, b, h1, h2 => by
    simp [runSaveCallbacks, h1, h2]
  | cb :: pre, l, l2, post, b, h1, h2 => by
    have ih := runSaveCallbacks_err_veto pre l l2 post b h1 h2
    cases hres : cb b with
    | ret bb => cases bb <;> simp [runSaveCallbacks, hres, ih]
    | err => simp [runSaveCallbacks, hres]

theorem onMouseUp_accept_append (s : CanvasState) (e : MouseEvent) (b : Box)
    (hb : s.currentBox = some b)
    (hacc : (runSaveCallbacks s.saveCallbacks s.currentBox).1 = Decision.accept) :
    (onMouseUp s e).boxes = s.boxes ++ [Item.box b] ∧
    (onMouseUp s e).currentBox = none := by
  simp [onMouseUp, saveCurrentBox, hb] at hacc ⊢
  rw [hacc]
  simp

theorem saveCurrentBox_frame (s : CanvasState) :
    (saveCurrentBox s).canDraw = s.canDraw ∧
    (saveCurrentBox s).xstartPosition = s.xstartPosition ∧
    (saveCurrentBox s).ystartPosition = s.ystartPosition ∧
    (saveCurrentBox s).currentColor = s.currentColor ∧
    (saveCurrentBox s).colorNumber = s.colorNumber ∧
    (saveCurrentBox s).saveCallbacks = s.saveCallbacks ∧
    (saveCurrentBox s).ctx = s.ctx ∧
    (saveCurrentBox s).width = s.width ∧
    (saveCurrentBox s).height = s.height ∧
    (saveCurrentBox s).rectLeft = s.rectLeft ∧
    (saveCurrentBox s).rectTop = s.rectTop := by
  cases hr : (runSaveCallbacks s.saveCallbacks s.currentBox).1 with
  | reject => simp [saveCurrentBox, hr]
  | accept =>
    cases hb : s.currentBox <;> rw [hb] at hr <;> simp [saveCurrentBox, hr, hb]

theorem onMouseUp_reject_keeps (s : CanvasState) (e : MouseEvent)
    (hrej : (runSaveCallbacks s.saveCallbacks s.currentBox).1 = Decision.reject) :
    (onMouseUp s e).boxes = s.boxes ∧
    (onMouseUp s e).currentBox = s.currentBox := by
  simp [onMouseUp, saveCurrentBox, hrej]

theorem onMouseUp_empty_slot (s : CanvasState) (e : MouseEvent)
    (h : s.currentBox = none) :
    (onMouseUp s e).boxes = s.boxes ∧
    (onMouseUp s e).currentBox = none ∧
    (onMouseUp s e).canDraw = false ∧
    (onMouseUp s e).xstartPosition = JVal.inf ∧
    (onMouseUp s e).ystartPosition = JVal.inf ∧
    (onMouseUp s e).currentColor = none ∧
    (onMouseUp s e).listenerCalls =
      s.listenerCalls + (runSaveCallbacks s.saveCallbacks none).2 := by
  cases hr : (runSaveCallbacks s.saveCallbacks none).1 <;>
    simp [onMouseUp, saveCurrentBox, h, hr]

theorem refresh_boxes (s : CanvasState) : (refresh s).boxes = s.boxes :=
  (refresh_frame s).1

theorem refresh_currentBox (s : CanvasState) : (refresh s).currentBox = s.currentBox :=
  (refresh_frame s).2.1

theorem refresh_currentColor (s : CanvasState) :
    (refresh s).currentColor = s.currentColor :=
  (refresh_frame s).2.2.1

theorem refresh_colorNumber (s : CanvasState) :
    (refresh s).colorNumber = s.colorNumber :=
  (refresh_frame s).2.2.2.1

theorem refresh_canDraw (s : CanvasState) : (refresh s).canDraw = s.canDraw :=
  (refresh_frame s).2.2.2.2.1

theorem refresh_xstart (s : CanvasState) :
    (refresh s).xstartPosition = s.xstartPosition :=
  (refresh_frame s).2.2.2.2.2.1

theorem refresh_ystart (s : CanvasState) :
    (refresh s).ystartPosition = s.ystartPosition :=
  (refresh_frame s).2.2.2.2.2.2.1

theorem refresh_saveCallbacks (s : CanvasState) :
    (refresh s).saveCallbacks = s.saveCallbacks :=
  (refresh_frame s).2.2.2.2.2.2.2.1

theorem refresh_width (s : CanvasState) : (refresh s).width = s.width :=
  (refresh_frame s).2.2.2.2.2.2.2.2.1

theorem refresh_height (s : CanvasState) : (refresh s).height = s.height :=
  (refresh_frame s).2.2.2.2.2.2.2.2.2.1

theorem refresh_rectLeft (s : CanvasState) : (refresh s).rectLeft = s.rectLeft :=
  (refresh_frame s).2.2.2.2.2.2.2.2.2.2.1

theorem refresh_rectTop (s : CanvasState) : (refresh s).rectTop = s.rectTop :=
  (refresh_frame s).2.2.2.2.2.2.2.2.2.2.2.1

theorem refresh_listenerCalls (s : CanvasState) :
    (refresh s).listenerCalls = s.listenerCalls :=
  (refresh_frame s).2.2.2.2.2.2.2.2.2.2.2.2

/-! ### drawRectangle lemmas -/

theorem drawRectangle_idle (s : CanvasState) (e : MouseEvent)
    (h : s.canDraw = false) : drawRectangle s e = s := by
  simp [drawRectangle, h]

theorem drawRectangle_boxes (s : CanvasState) (e : MouseEvent) :
    (drawRectangle s e).boxes = s.boxes := by
  by_cases h : s.canDraw = true
  · cases hc : s.currentColor <;>
      simp [drawRectangle, h, refresh_currentColor, hc, setColor, strokeRectOp,
        refresh_boxes]
  · have h2 : s.canDraw = false := by revert h; cases s.canDraw <;> simp
    rw [drawRectangle_idle s e h2]

theorem drawRectangle_active (s : CanvasState) (e : MouseEvent)
    (h : s.canDraw = true) :
    ∃ col : Option String,
      (drawRectangle s e).currentBox =
        some ⟨s.xstartPosition, s.ystartPosition,
          (JVal.num e.clientX - s.xstartPosition) - JVal.num s.rectLeft,
          (JVal.num e.clientY - s.ystartPosition) - JVal.num s.rectTop, col⟩ ∧
      (drawRectangle s e).currentColor = col ∧
      (drawRectangle s e).boxes = s.boxes ∧
      (drawRectangle s e).canDraw = true ∧
      (drawRectangle s e).xstartPosition = s.xstartPosition ∧
      (drawRectangle s e).ystartPosition = s.ystartPosition ∧
      (drawRectangle s e).saveCallbacks = s.saveCallbacks ∧
      (drawRectangle s e).rectLeft = s.rectLeft ∧
      (drawRectangle s e).rectTop = s.rectTop := by
  refine ⟨(drawRectangle s e).currentColor, ?_⟩
  cases hc : s.currentColor <;>
    simp [drawRectangle, h, refresh_currentColor, hc, setColor, strokeRectOp,
      refresh_boxes, refresh_canDraw, refresh_xstart, refresh_ystart,
      refresh_saveCallbacks, refresh_rectLeft, refresh_rectTop, Sub.sub]

theorem drawRectangle_first_color (s : CanvasState) (e : MouseEvent)
    (h : s.canDraw = true) (hc : s.currentColor = none) :
    (drawRectangle s e).colorNumber = s.colorNumber + 1 ∧
    (drawRectangle s e).currentColor =
      some (googColors.getD ((s.colorNumber + 1) % googColors.length) "") := by
  simp [drawRectangle, h, refresh_currentColor, hc, setColor, strokeRectOp,
    getRandomColorNext, refresh_colorNumber]

theorem drawRectangle_later_color (s : CanvasState) (e : MouseEvent) (c : String)
    (h : s.canDraw = true) (hc : s.currentColor = some c) :
    (drawRectangle s e).colorNumber = s.colorNumber ∧
    (drawRectangle s e).currentColor = some c := by
  simp [drawRectangle, h, refresh_currentColor, hc, strokeRectOp,
    refresh_colorNumber]

theorem drawRectangle_colorNumber_mono (s : CanvasState) (e : MouseEvent) :
    s.colorNumber ≤ (drawRectangle s e).colorNumber := by
  by_cases h : s.canDraw = true
  · cases hc : s.currentColor with
    | none => rw [(drawRectangle_first_color s e h hc).1]; exact Nat.le_succ _
    | some c => rw [(drawRectangle_later_color s e c h hc).1]
  · have h2 : s.canDraw = false := by revert h; cases s.canDraw <;> simp
    rw [drawRectangle_idle s e h2]

/-! ### Append-only committed list -/

theorem saveCurrentBox_boxes_mono (s : CanvasState) :
    s.boxes <+: (saveCurrentBox s).boxes := by
  cases hr : (runSaveCallbacks s.saveCallbacks s.currentBox).1 with
  | reject => simp [saveCurrentBox, hr]
  | accept =>
    cases hb : s.currentBox <;> rw [hb] at hr <;>
      simp [saveCurrentBox, hr, hb, List.prefix_append]

theorem onMouseUp_boxes_mono (s : CanvasState) (e : MouseEvent) :
    s.boxes <+: (onMouseUp s e).boxes := by
  have h := saveCurrentBox_boxes_mono
    { s with canDraw := false, xstartPosition := JVal.inf, ystartPosition := JVal.inf }
  simpa [onMouseUp] using h

theorem stepEv_boxes_mono (s : CanvasState) (ev : Ev) :
    s.boxes <+: (stepEv s ev).boxes := by
  cases ev with
  | mouseDown e => exact List.prefix_rfl
  | mouseMove e =>
    rw [show (stepEv s (Ev.mouseMove e)).boxes = (drawRectangle s e).boxes from rfl,
      drawRectangle_boxes]
  | mouseUp e => exact onMouseUp_boxes_mono s e
  | setPicture p => exact List.prefix_append s.boxes [Item.image p]
  | addSaveListener cb => exact List.prefix_rfl
  | setColor c => exact List.prefix_rfl
  | setup => exact List.prefix_rfl
  | imageLoad =>
    rw [show (stepEv s Ev.imageLoad).boxes = (refresh s).boxes from rfl, refresh_boxes]

theorem runEvents_boxes_mono : ∀ (evs : List Ev) (s : CanvasState),
    s.boxes <+: (runEvents s evs).boxes
  | [], _ => List.prefix_rfl
  | ev :: evs, s =>
    (stepEv_boxes_mono s ev).trans (runEvents_boxes_mono evs (stepEv s ev))

/-! ### The color generator, iterated -/

/-- State of the counter and list of yielded colors after `k` calls to the
generator (derived iteration of `getRandomColorNext`). -/
def genCalls : Nat → Nat × List String
  | 0 => (0, [])
  | k + 1 =>
    let p := genCalls k
    let g := getRandomColorNext p.1
    (g.1, p.2 ++ [g.2])

theorem genCalls_closed (k : Nat) :
    genCalls k =
      (k, (List.range k).map
        (fun i => googColors.getD ((i + 1) % googColors.length) "")) := by
  induction k with
  | zero => rfl
  | succ n ih => simp [genCalls, ih, getRandomColorNext, List.range_succ]

theorem stepEv_colorNumber_mono (s : CanvasState) (ev : Ev) :
    s.colorNumber ≤ (stepEv s ev).colorNumber := by
  cases ev with
  | mouseDown e => exact Nat.le_refl _
  | mouseMove e => exact drawRectangle_colorNumber_mono s e
  | mouseUp e =>
    have h := (saveCurrentBox_frame
      { s with canDraw := false, xstartPosition := JVal.inf,
               ystartPosition := JVal.inf }).2.2.2.2.1
    exact Nat.le_of_eq h.symm
  | setPicture p => exact Nat.le_refl _
  | addSaveListener cb => exact Nat.le_refl _
  | setColor c => exact Nat.le_refl _
  | setup => exact Nat.le_refl _
  | imageLoad => exact Nat.le_of_eq (refresh_colorNumber s).symm

/-! ### A whole drag -/

theorem JVal.num_sub (a b : Int) : JVal.num a - JVal.num b = JVal.num (a - b) := rfl

theorem movesRun_spec : ∀ (ms : List MouseEvent) (hne : ms ≠ []) (t : CanvasState),
    t.canDraw = true →
    ∃ col : Option String,
      (runEvents t (ms.map Ev.mouseMove)).currentBox =
        some ⟨t.xstartPosition, t.ystartPosition,
          (JVal.num (ms.getLast hne).clientX - t.xstartPosition) -
            JVal.num t.rectLeft,
          (JVal.num (ms.getLast hne).clientY - t.ystartPosition) -
            JVal.num t.rectTop, col⟩ ∧
      (runEvents t (ms.map Ev.mouseMove)).boxes = t.boxes ∧
      (runEvents t (ms.map Ev.mouseMove)).saveCallbacks = t.saveCallbacks ∧
      (runEvents t (ms.map Ev.mouseMove)).canDraw = true ∧
      (runEvents t (ms.map Ev.mouseMove)).xstartPosition = t.xstartPosition ∧
      (runEvents t (ms.map Ev.mouseMove)).ystartPosition = t.ystartPosition ∧
      (runEvents t (ms.map Ev.mouseMove)).rectLeft = t.rectLeft ∧
      (runEvents t (ms.map Ev.mouseMove)).rectTop = t.rectTop
  | [], hne, _, _ => absurd rfl hne
  | [m], _, t, h => by
    obtain ⟨col, hcb, _, hb, hcd, hx, hy, hsc, hrl, hrt⟩ :=
      drawRectangle_active t m h
    exact ⟨col, hcb, hb, hsc, hcd, hx, hy, hrl, hrt⟩
  | m :: m2 :: ms, _, t, h => by
    obtain ⟨c0, hcb0, _, hb0, hcd0, hx0, hy0, hsc0, hrl0, hrt0⟩ :=
      drawRectangle_active t m h
    obtain ⟨col, hcb, hb, hsc, hcd, hx, hy, hrl, hrt⟩ :=
      movesRun_spec (m2 :: ms) (List.cons_ne_nil m2 ms) (drawRectangle t m) hcd0
    have hrun : runEvents t ((m :: m2 :: ms).map Ev.mouseMove) =
        runEvents (drawRectangle t m) ((m2 :: ms).map Ev.mouseMove) := rfl
    rw [hx0, hy0, hrl0, hrt0] at hcb
    refine ⟨col, ?_, ?_, ?_, ?_, ?_, ?_, ?_, ?_⟩
    · rw [hrun, hcb, List.getLast_cons_cons]
    · rw [hrun, hb, hb0]
    · rw [hrun, hsc, hsc0]
    · rw [hrun, hcd]
    · rw [hrun, hx, hx0]
    · rw [hrun, hy, hy0]
    · rw [hrun, hrl, hrl0]
    · rw [hrun, hrt, hrt0]

/-! ## Claims -/

/-- C1 (counterexample): a drag whose pointer-up is vetoed by the single
registered listener leaves the rejected rectangle in the provisional slot —
the slot is not cleared on rejection, contrary to the claim. -/
theorem rejectedDrag_slot_not_cleared :
    (runEvents (initCanvas 100 100 0 0)
      [Ev.addSaveListener (fun _ => LRes.ret false),
       Ev.mouseDown ⟨10, 10⟩, Ev.mouseMove ⟨20, 30⟩, Ev.mouseUp ⟨20, 30⟩]).currentBox =
    some ⟨JVal.num 10, JVal.num 10, JVal.num 10, JVal.num 20, some "red"⟩ := by
  decide

/-- C1 (amended): on a pointer-up at which the save pipeline rejects, the
committed list is unchanged and the provisional slot keeps its previous
content (the rejected rectangle is retained, not cleared). -/
theorem rejection_keeps_slot_and_commits_nothing (s : CanvasState) (e : MouseEvent)
    (hrej : (runSaveCallbacks s.saveCallbacks s.currentBox).1 = Decision.reject) :
    (onMouseUp s e).boxes = s.boxes ∧ (onMouseUp s e).currentBox = s.currentBox :=
  onMouseUp_reject_keeps s e hrej

/-- C1 witness: the amended statement at the concrete rejected drag. -/
theorem rejection_keeps_slot_and_commits_nothing_witness :
    (onMouseUp (runEvents (initCanvas 100 100 0 0)
        [Ev.addSaveListener (fun _ => LRes.ret false),
         Ev.mouseDown ⟨10, 10⟩, Ev.mouseMove ⟨20, 30⟩]) ⟨20, 30⟩).boxes = [] ∧
    (onMouseUp (runEvents (initCanvas 100 100 0 0)
        [Ev.addSaveListener (fun _ => LRes.ret false),
         Ev.mouseDown ⟨10, 10⟩, Ev.mouseMove ⟨20, 30⟩]) ⟨20, 30⟩).currentBox =
      some ⟨JVal.num 10, JVal.num 10, JVal.num 10, JVal.num 20, some "red"⟩ :=
  rejection_keeps_slot_and_commits_nothing _ _ rfl

/-- C2: listeners run in registration order with short-circuit on the first
`false` or thrown error (exactly the vetoing listener and its predecessors
are invoked); a throwing listener behaves exactly like one returning
`false`; if all listeners return `true` the pipeline accepts and pointer-up
appends the provisional rectangle and clears the slot. -/
theorem savePipeline_order_shortCircuit_errVeto_accept :
    (∀ (cbs : List Listener) (b : Option Box),
      (∀ cb ∈ cbs, cb b = LRes.ret true) →
      runSaveCallbacks cbs b = (Decision.accept, cbs.length)) ∧
    (∀ (pre : List Listener) (l : Listener) (post : List Listener) (b : Option Box),
      (∀ cb ∈ pre, cb b = LRes.ret true) → l b ≠ LRes.ret true →
      runSaveCallbacks (pre ++ l :: post) b = (Decision.reject, pre.length + 1)) ∧
    (∀ (pre : List Listener) (l l2 : Listener) (post : List Listener) (b : Option Box),
      l b = LRes.err → l2 b = LRes.ret false →
      runSaveCallbacks (pre ++ l :: post) b = runSaveCallbacks (pre ++ l2 :: post) b) ∧
    (∀ (s : CanvasState) (e : MouseEvent) (b : Box),
      s.currentBox = some b →
      (runSaveCallbacks s.saveCallbacks s.currentBox).1 = Decision.accept →
      (onMouseUp s e).boxes = s.boxes ++ [Item.box b] ∧
      (onMouseUp s e).currentBox = none) :=
  ⟨runSaveCallbacks_all_true, runSaveCallbacks_reject, runSaveCallbacks_err_veto,
   onMouseUp_accept_append⟩

/-- C2 witness: each part of the pipeline contract at concrete inputs. -/
theorem savePipeline_order_shortCircuit_errVeto_accept_witness :
    runSaveCallbacks [fun _ => LRes.ret true] none = (Decision.accept, 1) ∧
    runSaveCallbacks
      [fun _ => LRes.ret true, fun _ => LRes.ret false, fun _ => LRes.ret true] none
      = (Decision.reject, 2) ∧
    runSaveCallbacks [fun _ => LRes.err] none =
      runSaveCallbacks [fun _ => LRes.ret false] none ∧
    (onMouseUp (runEvents (initCanvas 100 100 0 0)
        [Ev.mouseDown ⟨1, 1⟩, Ev.mouseMove ⟨4, 5⟩]) ⟨4, 5⟩).boxes =
      [Item.box ⟨JVal.num 1, JVal.num 1, JVal.num 3, JVal.num 4, some "red"⟩] ∧
    (onMouseUp (runEvents (initCanvas 100 100 0 0)
        [Ev.mouseDown ⟨1, 1⟩, Ev.mouseMove ⟨4, 5⟩]) ⟨4, 5⟩).currentBox = none := by
  refine ⟨?_, ?_, ?_, ?_, ?_⟩
  · exact savePipeline_order_shortCircuit_errVeto_accept.1 [fun _ => LRes.ret true] none
      (by intro cb hcb; rw [List.mem_singleton] at hcb; subst hcb; rfl)
  · exact savePipeline_order_shortCircuit_errVeto_accept.2.1
      [fun _ => LRes.ret true] (fun _ => LRes.ret false) [fun _ => LRes.ret true] none
      (by intro cb hcb; rw [List.mem_singleton] at hcb; subst hcb; rfl) (by decide)
  · exact savePipeline_order_shortCircuit_errVeto_accept.2.2.1
      [] (fun _ => LRes.err) (fun _ => LRes.ret false) [] none rfl rfl
  · exact (savePipeline_order_shortCircuit_errVeto_accept.2.2.2
      (runEvents (initCanvas 100 100 0 0) [Ev.mouseDown ⟨1, 1⟩, Ev.mouseMove ⟨4, 5⟩])
      ⟨4, 5⟩ ⟨JVal.num 1, JVal.num 1, JVal.num 3, JVal.num 4, some "red"⟩
      (by decide) rfl).1
  · exact (savePipeline_order_shortCircuit_errVeto_accept.2.2.2
      (runEvents (initCanvas 100 100 0 0) [Ev.mouseDown ⟨1, 1⟩, Ev.mouseMove ⟨4, 5⟩])
      ⟨4, 5⟩ ⟨JVal.num 1, JVal.num 1, JVal.num 3, JVal.num 4, some "red"⟩
      (by decide) rfl).2

/-- C3 (counterexample): a pointer-down immediately followed by pointer-up
(N = 0 moves), with no listeners registered, appends nothing — no
provisional rectangle was ever created — contradicting the claim that
exactly one rectangle is appended including the N = 0 case. -/
theorem zeroMove_drag_commits_nothing :
    (runEvents (initCanvas 100 100 0 0)
      [Ev.mouseDown ⟨10, 10⟩, Ev.mouseUp ⟨10, 10⟩]).boxes = [] := by
  decide

/-- C3 (amended): for pointer-down at `d`, then N >= 1 moves ending at
`ms.getLast`, then pointer-up, with no listeners registered, exactly one
rectangle is appended to the committed list and its width and height are
`lastMoveX - downX` and `lastMoveY - downY`. -/
theorem dragWithMoves_commits_exactly_one (s : CanvasState) (d u : MouseEvent)
    (ms : List MouseEvent) (hne : ms ≠ []) (hcb : s.saveCallbacks = []) :
    ∃ b : Box,
      (runEvents s (Ev.mouseDown d :: (ms.map Ev.mouseMove ++ [Ev.mouseUp u]))).boxes
        = s.boxes ++ [Item.box b] ∧
      b.width = JVal.num ((ms.getLast hne).clientX - d.clientX) ∧
      b.height = JVal.num ((ms.getLast hne).clientY - d.clientY) := by
  obtain ⟨col, hcbox, hboxes, hsc, hcd, hx, hy, hrl, hrt⟩ :=
    movesRun_spec ms hne (onMouseDown s d) rfl
  have hacc : (runSaveCallbacks
      (runEvents (onMouseDown s d) (ms.map Ev.mouseMove)).saveCallbacks
      (runEvents (onMouseDown s d) (ms.map Ev.mouseMove)).currentBox).1 =
      Decision.accept := by
    rw [hsc, show (onMouseDown s d).saveCallbacks = s.saveCallbacks from rfl, hcb]
    rfl
  obtain ⟨hb1, _⟩ :=
    onMouseUp_accept_append (runEvents (onMouseDown s d) (ms.map Ev.mouseMove)) u _
      hcbox hacc
  have hrw : runEvents s (Ev.mouseDown d :: (ms.map Ev.mouseMove ++ [Ev.mouseUp u]))
      = onMouseUp (runEvents (onMouseDown s d) (ms.map Ev.mouseMove)) u := by
    show List.foldl stepEv (stepEv s (Ev.mouseDown d))
        (ms.map Ev.mouseMove ++ [Ev.mouseUp u]) = _
    rw [List.foldl_append]
    rfl
  refine ⟨⟨(onMouseDown s d).xstartPosition, (onMouseDown s d).ystartPosition,
    (JVal.num (ms.getLast hne).clientX - (onMouseDown s d).xstartPosition) -
      JVal.num (onMouseDown s d).rectLeft,
    (JVal.num (ms.getLast hne).clientY - (onMouseDown s d).ystartPosition) -
      JVal.num (onMouseDown s d).rectTop, col⟩, ?_, ?_, ?_⟩
  · rw [hrw, hb1, hboxes, show (onMouseDown s d).boxes = s.boxes from rfl]
  · show (JVal.num (ms.getLast hne).clientX - (onMouseDown s d).xstartPosition) -
      JVal.num (onMouseDown s d).rectLeft = _
    rw [show (onMouseDown s d).xstartPosition = JVal.num (d.clientX - s.rectLeft)
          from rfl,
        show (onMouseDown s d).rectLeft = s.rectLeft from rfl,
        JVal.num_sub, JVal.num_sub]
    congr 1
    ring
  · show (JVal.num (ms.getLast hne).clientY - (onMouseDown s d).ystartPosition) -
      JVal.num (onMouseDown s d).rectTop = _
    rw [show (onMouseDown s d).ystartPosition = JVal.num (d.clientY - s.rectTop)
          from rfl,
        show (onMouseDown s d).rectTop = s.rectTop from rfl,
        JVal.num_sub, JVal.num_sub]
    congr 1
    ring

/-- C3 witness: the amended statement at a concrete two-move drag. -/
theorem dragWithMoves_commits_exactly_one_witness :
    ∃ b : Box,
      (runEvents (initCanvas 100 100 0 0)
        (Ev.mouseDown ⟨10, 10⟩ ::
          ([⟨12, 13⟩, ⟨50, 40⟩].map Ev.mouseMove ++ [Ev.mouseUp ⟨50, 40⟩]))).boxes
        = [] ++ [Item.box b] ∧
      b.width = JVal.num (([⟨12, 13⟩, (⟨50, 40⟩ : MouseEvent)].getLast
          (by decide)).clientX - 10) ∧
      b.height = JVal.num (([⟨12, 13⟩, (⟨50, 40⟩ : MouseEvent)].getLast
          (by decide)).clientY - 10) :=
  dragWithMoves_commits_exactly_one (initCanvas 100 100 0 0) ⟨10, 10⟩ ⟨50, 40⟩
    [⟨12, 13⟩, ⟨50, 40⟩] (by decide) rfl

/-- C4: the color generator's first call yields the palette entry at index 1
(skipping index 0); after `k` calls the internal counter is exactly `k` and
the i-th call (1-based) yielded `googColors[i % 4]`, so the k+1-st call
yields `googColors[(k+1) % 4]`; and no canvas operation ever decreases the
generator position (it advances monotonically and is never restarted). -/
theorem colorCycle_skip_and_cycle :
    (genCalls 1).2 = [googColors.getD 1 ""] ∧
    (∀ k : Nat, genCalls k =
      (k, (List.range k).map
        (fun i => googColors.getD ((i + 1) % googColors.length) ""))) ∧
    (∀ k : Nat, ((genCalls (k + 1)).2).getD k "" =
      googColors.getD ((k + 1) % googColors.length) "") ∧
    (∀ (s : CanvasState) (ev : Ev), s.colorNumber ≤ (stepEv s ev).colorNumber) := by
  refine ⟨by decide, genCalls_closed, ?_, stepEv_colorNumber_mono⟩
  intro k
  rw [genCalls_closed]
  simp [List.getD]

/-- C5: with the fixed palette `[blue, red, yellow, green]` and no listeners
registered, a first drag from (10,10) to (50,40) leaves the committed list
equal to `[{x:10, y:10, w:40, h:30, color:red}]`, and a second zero-movement
drag at (0,0) appends `{x:0, y:0, w:0, h:0, color:yellow}`. -/
theorem concrete_two_drag_scenario :
    googColors = ["blue", "red", "yellow", "green"] ∧
    (runEvents (initCanvas 100 100 0 0)
      [Ev.mouseDown ⟨10, 10⟩, Ev.mouseMove ⟨50, 40⟩, Ev.mouseUp ⟨50, 40⟩]).boxes =
      [Item.box ⟨JVal.num 10, JVal.num 10, JVal.num 40, JVal.num 30, some "red"⟩] ∧
    (runEvents (initCanvas 100 100 0 0)
      [Ev.mouseDown ⟨10, 10⟩, Ev.mouseMove ⟨50, 40⟩, Ev.mouseUp ⟨50, 40⟩,
       Ev.mouseDown ⟨0, 0⟩, Ev.mouseMove ⟨0, 0⟩, Ev.mouseUp ⟨0, 0⟩]).boxes =
      [Item.box ⟨JVal.num 10, JVal.num 10, JVal.num 40, JVal.num 30, some "red"⟩,
       Item.box ⟨JVal.num 0, JVal.num 0, JVal.num 0, JVal.num 0, some "yellow"⟩] :=
  ⟨rfl, by decide, by decide⟩

/-- C6 (counterexample): a pointer-up in a state with no provisional
rectangle still invokes the registered listener (with the absent box), so
listeners do produce observable effects, contrary to the claim. -/
theorem emptySlot_pointerUp_still_invokes_listeners :
    (runEvents (initCanvas 100 100 0 0)
      [Ev.addSaveListener (fun _ => LRes.ret true), Ev.mouseUp ⟨0, 0⟩]).listenerCalls
      = 1 := by
  decide

/-- C6 (amended): a pointer-up with no provisional rectangle leaves the
committed list unchanged, keeps the slot empty, and resets the
drawing-enabled flag, the anchor sentinel and the current-color slot — but
the registered listeners are still run (the invocation count grows by the
number of callbacks the pipeline invokes on the absent box). -/
theorem emptySlot_pointerUp_resets_and_commits_nothing (s : CanvasState)
    (e : MouseEvent) (h : s.currentBox = none) :
    (onMouseUp s e).boxes = s.boxes ∧
    (onMouseUp s e).currentBox = none ∧
    (onMouseUp s e).canDraw = false ∧
    (onMouseUp s e).xstartPosition = JVal.inf ∧
    (onMouseUp s e).ystartPosition = JVal.inf ∧
    (onMouseUp s e).currentColor = none ∧
    (onMouseUp s e).listenerCalls =
      s.listenerCalls + (runSaveCallbacks s.saveCallbacks none).2 :=
  onMouseUp_empty_slot s e h

/-- C6 witness: the amended statement at a concrete listener-bearing state. -/
theorem emptySlot_pointerUp_resets_and_commits_nothing_witness :
    (onMouseUp (runEvents (initCanvas 100 100 0 0)
        [Ev.addSaveListener (fun _ => LRes.ret true)]) ⟨0, 0⟩).boxes = [] ∧
    (onMouseUp (runEvents (initCanvas 100 100 0 0)
        [Ev.addSaveListener (fun _ => LRes.ret true)]) ⟨0, 0⟩).currentBox = none ∧
    (onMouseUp (runEvents (initCanvas 100 100 0 0)
        [Ev.addSaveListener (fun _ => LRes.ret true)]) ⟨0, 0⟩).canDraw = false ∧
    (onMouseUp (runEvents (initCanvas 100 100 0 0)
        [Ev.addSaveListener (fun _ => LRes.ret true)]) ⟨0, 0⟩).xstartPosition
      = JVal.inf ∧
    (onMouseUp (runEvents (initCanvas 100 100 0 0)
        [Ev.addSaveListener (fun _ => LRes.ret true)]) ⟨0, 0⟩).ystartPosition
      = JVal.inf ∧
    (onMouseUp (runEvents (initCanvas 100 100 0 0)
        [Ev.addSaveListener (fun _ => LRes.ret true)]) ⟨0, 0⟩).currentColor = none ∧
    (onMouseUp (runEvents (initCanvas 100 100 0 0)
        [Ev.addSaveListener (fun _ => LRes.ret true)]) ⟨0, 0⟩).listenerCalls = 1 :=
  emptySlot_pointerUp_resets_and_commits_nothing _ _ rfl

/-- C7: a pointer-move received while the drawing-enabled flag is false is
a complete no-op — the state, including the committed list, provisional
slot, color state, generator position and the draw-command log, is exactly
unchanged (so no repaint happens). -/
theorem idle_pointerMove_is_noop (s : CanvasState) (e : MouseEvent)
    (h : s.canDraw = false) : stepEv s (Ev.mouseMove e) = s :=
  drawRectangle_idle s e h

/-- C7 witness: the no-op at a concrete idle state. -/
theorem idle_pointerMove_is_noop_witness :
    stepEv (initCanvas 100 100 0 0) (Ev.mouseMove ⟨3, 4⟩) = initCanvas 100 100 0 0 :=
  idle_pointerMove_is_noop (initCanvas 100 100 0 0) ⟨3, 4⟩ rfl

/-- C8: within one drag, the color generator is consumed exactly once, on
the first pointer-move (current color absent): that move advances the
generator by one and stores the drawn color; moves with a color already
assigned leave the generator position and color unchanged; pointer-up
clears the current-color slot and pointer-down touches neither. -/
theorem color_assigned_once_per_drag :
    (∀ (s : CanvasState) (e : MouseEvent), s.canDraw = true → s.currentColor = none →
      (stepEv s (Ev.mouseMove e)).colorNumber = s.colorNumber + 1 ∧
      (stepEv s (Ev.mouseMove e)).currentColor =
        some (googColors.getD ((s.colorNumber + 1) % googColors.length) "")) ∧
    (∀ (s : CanvasState) (e : MouseEvent) (c : String), s.canDraw = true →
      s.currentColor = some c →
      (stepEv s (Ev.mouseMove e)).colorNumber = s.colorNumber ∧
      (stepEv s (Ev.mouseMove e)).currentColor = some c) ∧
    (∀ (s : CanvasState) (e : MouseEvent), (onMouseUp s e).currentColor = none) ∧
    (∀ (s : CanvasState) (e : MouseEvent),
      (onMouseDown s e).currentColor = s.currentColor ∧
      (onMouseDown s e).colorNumber = s.colorNumber) :=
  ⟨fun s e h hc => drawRectangle_first_color s e h hc,
   fun s e c h hc => drawRectangle_later_color s e c h hc,
   fun _ _ => rfl,
   fun _ _ => ⟨rfl, rfl⟩⟩

/-- C8 witness: the first-move and later-move cases at concrete states. -/
theorem color_assigned_once_per_drag_witness :
    (stepEv (runEvents (initCanvas 100 100 0 0) [Ev.mouseDown ⟨0, 0⟩])
      (Ev.mouseMove ⟨5, 5⟩)).colorNumber = 1 ∧
    (stepEv (runEvents (initCanvas 100 100 0 0) [Ev.mouseDown ⟨0, 0⟩])
      (Ev.mouseMove ⟨5, 5⟩)).currentColor = some "red" ∧
    (stepEv (runEvents (initCanvas 100 100 0 0)
        [Ev.mouseDown ⟨0, 0⟩, Ev.mouseMove ⟨5, 5⟩])
      (Ev.mouseMove ⟨7, 7⟩)).colorNumber = 1 ∧
    (stepEv (runEvents (initCanvas 100 100 0 0)
        [Ev.mouseDown ⟨0, 0⟩, Ev.mouseMove ⟨5, 5⟩])
      (Ev.mouseMove ⟨7, 7⟩)).currentColor = some "red" := by
  have h1 := color_assigned_once_per_drag.1
    (runEvents (initCanvas 100 100 0 0) [Ev.mouseDown ⟨0, 0⟩]) ⟨5, 5⟩ rfl rfl
  have h2 := color_assigned_once_per_drag.2.1
    (runEvents (initCanvas 100 100 0 0) [Ev.mouseDown ⟨0, 0⟩, Ev.mouseMove ⟨5, 5⟩])
    ⟨7, 7⟩ "red" rfl (by decide)
  exact ⟨h1.1, h1.2, h2.1, h2.2⟩

/-- C9: the render pass is deterministic and idempotent — one `refresh`
appends exactly the trace determined by the committed list and surface
size, a second `refresh` with unchanged state emits the identical trace,
`refresh` restores the current-color slot, and each committed rectangle is
stroked in its stored color with the ambient color slot restored to its
value from before that rectangle was drawn. -/
theorem render_deterministic_and_restores_color (s : CanvasState) :
    (refresh s).ctx.ops = s.ctx.ops ++ refreshTrace s ∧
    refreshTrace (refresh s) = refreshTrace s ∧
    (refresh (refresh s)).ctx.ops = (refresh s).ctx.ops ++ refreshTrace s ∧
    (refresh s).currentColor = s.currentColor ∧
    (refresh s).boxes = s.boxes ∧
    (∀ (t : CanvasState) (b : Box),
      (refreshItem t (Item.box b)).currentColor = t.currentColor ∧
      (refreshItem t (Item.box b)).ctx.ops =
        t.ctx.ops ++ [DrawOp.strokeRect b.posX b.posY b.width b.height b.color]) := by
  have h2 : refreshTrace (refresh s) = refreshTrace s := by
    unfold refreshTrace
    rw [refresh_width, refresh_height, refresh_boxes]
  exact ⟨refresh_ops s, h2, by rw [refresh_ops (refresh s), h2],
    refresh_currentColor s, refresh_boxes s,
    fun t b => ⟨(refreshItem_frame t (Item.box b)).2.2.1, refreshItem_ops t (Item.box b)⟩⟩

/-- C10: the committed list is append-only — after any sequence of handler
invocations and public-method calls, the earlier committed list is a
prefix of the later one (no entry is removed, reordered or replaced). -/
theorem committed_list_append_only (s : CanvasState) (evs : List Ev) :
    s.boxes <+: (runEvents s evs).boxes :=
  runEvents_boxes_mono evs s
